import Mathlib

/-!
Shallow embedding of `tutorials/dify-platform-deep-dive/docs/examples/simple-workflow.py`.

The script is a linear HTTP-client tutorial: a `DifyWorkflowExample` client
creates an application (`POST /v1/apps`), configures its model
(`PUT /v1/apps/{id}/model-config`) and sends three chat messages
(`POST /v1/apps/{id}/chat-messages`), printing outcomes to the console.

The HTTP layer (the `requests` library) is modelled by a `Transport`
function from a `Request` to either a `Response` (status code, raw text,
decoded JSON body) or a raised exception (`Except.error` with the
exception message, as Python `str(e)` renders it).  Each client method
returns a triple: its Python return value (wrapped in `Except`, since a
transport exception propagates out of the method uncaught), the list of
HTTP requests it issued, and the list of lines it printed.  `main`
threads these triples in program order and installs the single
`try/except` handler of the source.
-/

/-- Decoded JSON values, as the Python `json` module would hand them back.
Numeric literals are kept as their source text; no arithmetic is ever
performed on them in this script. -/
inductive Json where
  | str : String → Json
  | num : String → Json
  | obj : List (String × Json) → Json

/-- A decoded JSON object body: what `response.json()` returns for the
dict-shaped bodies this script exchanges. -/
abbrev JObj := List (String × Json)

/-- Key membership test on a JSON value (Python `k in d`); false on
non-objects. -/
def Json.hasKey (k : String) : Json → Bool
  | .obj fields => fields.any (fun p => p.1 == k)
  | _ => false

/-- Field lookup on a JSON value; `none` on non-objects or missing key. -/
def Json.get? (k : String) : Json → Option Json
  | .obj fields => fields.lookup k
  | _ => none

/-- Python `str()` on a decoded JSON value, as f-string interpolation
applies it.  In every execution this development reasons about the value
interpolated is a string; the rendering of a nested object (which Python
would print as a dict literal) is abbreviated, as no claim depends on it. -/
def Json.pyStr : Json → String
  | .str s => s
  | .num s => s
  | .obj _ => "dict"

/-- An HTTP request as issued through the `requests` library: the method
(`requests.post` / `requests.put`), the url, the `headers=` argument and
the `json=` payload. -/
structure Request where
  method : String
  url : String
  headers : List (String × String)
  payload : Json

/-- An HTTP response: `response.status_code`, `response.text`, and the
object `response.json()` decodes to. -/
structure Response where
  status_code : Nat
  text : String
  body : JObj

/-- The mocked HTTP layer: answers each request with a response, or
raises an exception (`.error` carries the Python exception message). -/
abbrev Transport := Request → Except String Response

/-- The client class: `__init__` stores the api key, the base url and the
headers dict. -/
structure DifyWorkflowExample where
  api_key : String
  base_url : String
  headers : List (String × String)

/-- Constructor `DifyWorkflowExample.__init__`. -/
def DifyWorkflowExample.init (api_key base_url : String) : DifyWorkflowExample :=
  ⟨api_key, base_url,
    [("Authorization", "Bearer " ++ api_key), ("Content-Type", "application/json")]⟩

/-- Default value of the `base_url` parameter of `__init__`. -/
def default_base_url : String := "http://localhost:5001"

/-- The fixed `app_data` payload literal of `create_simple_app`. -/
def app_data_payload : Json := .obj
  [("name", .str "Simple Tutorial Bot"),
   ("description", .str "A basic chatbot for learning Dify workflows"),
   ("mode", .str "chat"),
   ("icon", .str "🤖"),
   ("icon_background", .str "#3B82F6")]

/-- Method `create_simple_app`: POST the fixed payload to `/v1/apps`;
on status 201 return the decoded body, otherwise print a diagnostic and
return the empty dict. -/
def DifyWorkflowExample.create_simple_app (d : DifyWorkflowExample) (transport : Transport) :
    Except String JObj × List Request × List String :=
  let req : Request := ⟨"POST", d.base_url ++ "/v1/apps", d.headers, app_data_payload⟩
  match transport req with
  | .error e => (.error e, [req], [])
  | .ok response =>
    if response.status_code = 201 then
      (.ok response.body, [req], ["✅ App created successfully!"])
    else
      (.ok [], [req], ["❌ Error creating app: " ++ response.text])

/-- The fixed `model_config` payload literal of `configure_model`. -/
def model_config_payload : Json := .obj
  [("provider", .str "openai"),
   ("model", .str "gpt-3.5-turbo"),
   ("parameters", .obj
     [("temperature", .num "0.7"),
      ("max_tokens", .num "1000"),
      ("top_p", .num "1.0"),
      ("frequency_penalty", .num "0.0"),
      ("presence_penalty", .num "0.0")])]

/-- Method `configure_model`: PUT the fixed model configuration to
`/v1/apps/{app_id}/model-config`; return `status_code == 200`. -/
def DifyWorkflowExample.configure_model (d : DifyWorkflowExample) (transport : Transport)
    (app_id : String) :
    Except String Bool × List Request × List String :=
  let req : Request :=
    ⟨"PUT", d.base_url ++ "/v1/apps/" ++ app_id ++ "/model-config", d.headers,
      model_config_payload⟩
  match transport req with
  | .error e => (.error e, [req], [])
  | .ok response => (.ok (response.status_code == 200), [req], [])

/-- Default value of the `user_id` parameter of `send_message`. -/
def tutorial_user : String := "tutorial-user"

/-- Method `send_message`: POST `{query, user, conversation_id: "", inputs: {}}`
to `/v1/apps/{app_id}/chat-messages`; on status 200 return the decoded
body, otherwise print a diagnostic and return the empty dict. -/
def DifyWorkflowExample.send_message (d : DifyWorkflowExample) (transport : Transport)
    (app_id message user_id : String) :
    Except String JObj × List Request × List String :=
  let message_data : Json := .obj
    [("query", .str message),
     ("user", .str user_id),
     ("conversation_id", .str ""),
     ("inputs", .obj [])]
  let req : Request :=
    ⟨"POST", d.base_url ++ "/v1/apps/" ++ app_id ++ "/chat-messages", d.headers, message_data⟩
  match transport req with
  | .error e => (.error e, [req], [])
  | .ok response =>
    if response.status_code = 200 then
      (.ok response.body, [req], [])
    else
      (.ok [], [req], ["❌ Error sending message: " ++ response.text])

/-- The fixed `test_messages` literal of `main`.  The apostrophe of the
third prompt is spelled via its code point. -/
def apos : String := String.singleton (Char.ofNat 39)

/-- The three prompts `main` iterates over. -/
def test_messages : List String :=
  ["Hello! What can you help me with?",
   "Explain what Dify is in simple terms",
   "What are the main components of Dify" ++ apos ++ "s architecture?"]

/-- The hardcoded api key literal of `main`. -/
def the_api_key : String := "your-api-key-here"

/-- The `for message in test_messages` loop body of `main`: print the
user line, call `send_message` (with the default `user_id`), print the
bot answer or a failure notice, continue with the rest.  A transport
exception aborts the loop and propagates. -/
def message_loop (d : DifyWorkflowExample) (transport : Transport) (app_id : String) :
    List String → Except String Unit × List Request × List String
  | [] => (.ok (), [], [])
  | message :: rest =>
    let (r, q, p) := d.send_message transport app_id message tutorial_user
    match r with
    | .error e => (.error e, q, ("\n👤 User: " ++ message) :: p)
    | .ok response =>
      let pAns :=
        if response.isEmpty = false then
          match response.lookup "answer" with
          | some a => ["🤖 Bot: " ++ a.pyStr]
          | none => ["❌ No response received"]
        else ["❌ No response received"]
      let (r2, q2, p2) := message_loop d transport app_id rest
      (r2, q ++ q2, ("\n👤 User: " ++ message) :: (p ++ pAns ++ p2))

/-- The body of the `try:` block of `main`: create the app, abort if the
result is falsy, read `app_data["id"]` (raising `KeyError`, whose message is the key in single quotes, when absent), configure the model, abort on failure, then run
the message loop and print the closing lines. -/
def main_try (d : DifyWorkflowExample) (transport : Transport) :
    Except String Unit × List Request × List String :=
  let (r1, q1, p1) := d.create_simple_app transport
  match r1 with
  | .error e => (.error e, q1, "🚀 Creating Dify application..." :: p1)
  | .ok app_data =>
    if app_data.isEmpty then
      (.ok (), q1,
        "🚀 Creating Dify application..." :: (p1 ++ ["Failed to create app. Exiting."]))
    else
      match app_data.lookup "id" with
      | none =>
        (.error (apos ++ "id" ++ apos), q1, "🚀 Creating Dify application..." :: p1)
      | some idv =>
        let app_id := idv.pyStr
        let (r2, q2, p2) := d.configure_model transport app_id
        match r2 with
        | .error e =>
          (.error e, q1 ++ q2,
            "🚀 Creating Dify application..." ::
              (p1 ++ (["📱 App created with ID: " ++ app_id, "⚙️ Configuring LLM model..."] ++ p2)))
        | .ok ok =>
          if ok then
            let (r3, q3, p3) := message_loop d transport app_id test_messages
            let pre :=
              "🚀 Creating Dify application..." ::
                (p1 ++ (["📱 App created with ID: " ++ app_id, "⚙️ Configuring LLM model..."] ++
                  (p2 ++ ["✅ Model configured successfully!", "\n💬 Testing the chatbot..."])))
            match r3 with
            | .error e => (.error e, q1 ++ (q2 ++ q3), pre ++ p3)
            | .ok _ =>
              (.ok (), q1 ++ (q2 ++ q3),
                pre ++ (p3 ++
                  ["\n🎉 Tutorial workflow completed successfully!",
                   "📊 App dashboard: http://localhost:3000/apps/" ++ app_id]))
          else
            (.ok (), q1 ++ q2,
              "🚀 Creating Dify application..." ::
                (p1 ++ (["📱 App created with ID: " ++ app_id, "⚙️ Configuring LLM model..."] ++
                  (p2 ++ ["❌ Failed to configure model"]))))

/-- The observable outcome of one run of `main`: the console lines in
order and the HTTP requests issued in order. -/
structure RunResult where
  prints : List String
  requests : List Request

/-- Function `main` of the script (the spec calls it `run()`): build the client with the hardcoded key and default
base url, run the `try:` body, and catch any exception at the top,
printing it. -/
def run (transport : Transport) : RunResult :=
  let dify := DifyWorkflowExample.init the_api_key default_base_url
  match main_try dify transport with
  | (.error e, q, p) => ⟨p ++ ["💥 An error occurred: " ++ e], q⟩
  | (.ok _, q, p) => ⟨p, q⟩

/-- Classifier: the create-application request (the only POST whose
payload carries `icon_background`). -/
def is_create_req (r : Request) : Bool :=
  r.method == "POST" && r.payload.hasKey "icon_background"

/-- Classifier: the configure-model request (the only PUT the script
issues). -/
def is_config_req (r : Request) : Bool := r.method == "PUT"

/-- Classifier: a chat-message request (a POST whose payload carries
`conversation_id`). -/
def is_chat_req (r : Request) : Bool :=
  r.method == "POST" && r.payload.hasKey "conversation_id"

/-- The `query` field of a chat request payload, when it is a string. -/
def chat_query (r : Request) : Option String :=
  match r.payload.get? "query" with
  | some (.str s) => some s
  | _ => none

/-- The `conversation_id` field of a chat request payload, when it is a
string. -/
def chat_conversation_id (r : Request) : Option String :=
  match r.payload.get? "conversation_id" with
  | some (.str s) => some s
  | _ => none

/-- The mocked transport of the end-to-end scenario: create → 201 with
body `{"id": "abc"}`, configure → 200, chat → 200 with body
`{"answer": "hi"}`. -/
def mock_transport : Transport := fun r =>
  if is_create_req r then .ok ⟨201, "", [("id", .str "abc")]⟩
  else if is_config_req r then .ok ⟨200, "", []⟩
  else .ok ⟨200, "", [("answer", .str "hi")]⟩

/-! ### Helper characterizations of the issued requests -/

/-- The single request `create_simple_app` issues. -/
def create_request (d : DifyWorkflowExample) : Request :=
  ⟨"POST", d.base_url ++ "/v1/apps", d.headers, app_data_payload⟩

/-- The single request `configure_model` issues. -/
def config_request (d : DifyWorkflowExample) (app_id : String) : Request :=
  ⟨"PUT", d.base_url ++ "/v1/apps/" ++ app_id ++ "/model-config", d.headers,
    model_config_payload⟩

/-- The single request `send_message` issues. -/
def chat_request (d : DifyWorkflowExample) (app_id message user_id : String) : Request :=
  ⟨"POST", d.base_url ++ "/v1/apps/" ++ app_id ++ "/chat-messages", d.headers,
    .obj [("query", .str message), ("user", .str user_id),
          ("conversation_id", .str ""), ("inputs", .obj [])]⟩

theorem create_simple_app_requests (d : DifyWorkflowExample) (t : Transport) :
    (d.create_simple_app t).2.1 = [create_request d] := by
  unfold DifyWorkflowExample.create_simple_app create_request
  dsimp only
  split
  · rfl
  · split <;> rfl

theorem configure_model_requests (d : DifyWorkflowExample) (t : Transport) (a : String) :
    (d.configure_model t a).2.1 = [config_request d a] := by
  unfold DifyWorkflowExample.configure_model config_request
  dsimp only
  split <;> rfl

theorem send_message_requests (d : DifyWorkflowExample) (t : Transport) (a m u : String) :
    (d.send_message t a m u).2.1 = [chat_request d a m u] := by
  unfold DifyWorkflowExample.send_message chat_request
  dsimp only
  split
  · rfl
  · split <;> rfl

/-! ### Claims about the individual operations -/

/-- C1: on the mocked end-to-end transport (create → 201/`{"id":"abc"}`,
configure → 200, chat → 200/`{"answer":"hi"}`), `run()` issues exactly one
create-application request, exactly one configure-model request and
exactly three chat-message requests (five requests in all), and the chat
requests carry, in order, the three literal prompts of `test_messages`,
each with `conversation_id = ""`. -/
theorem C1_end_to_end :
    (run mock_transport).requests.length = 5 ∧
    ((run mock_transport).requests.filter is_create_req).length = 1 ∧
    ((run mock_transport).requests.filter is_config_req).length = 1 ∧
    ((run mock_transport).requests.filter is_chat_req).length = 3 ∧
    ((run mock_transport).requests.filter is_chat_req).map chat_query =
      test_messages.map some ∧
    ((run mock_transport).requests.filter is_chat_req).map chat_conversation_id =
      [some "", some "", some ""] := by
  decide

/-- C2: against a transport answering with status `s`, `configure_model`
returns `True` exactly when `s = 200`, and `False` for every other
status (in particular for 201). -/
theorem C2_configure_model_iff_200 (d : DifyWorkflowExample) (app_id : String)
    (s : Nat) (txt : String) (b : JObj) :
    ((d.configure_model (fun _ => .ok ⟨s, txt, b⟩) app_id).1 = .ok true ↔ s = 200) ∧
    (s ≠ 200 → (d.configure_model (fun _ => .ok ⟨s, txt, b⟩) app_id).1 = .ok false) := by
  unfold DifyWorkflowExample.configure_model
  constructor
  · simp
  · intro h
    simp [h]

theorem C2_configure_model_iff_200_witness :
    (((DifyWorkflowExample.init "k" "http://localhost:5001").configure_model
        (fun _ => .ok ⟨201, "", []⟩) "a").1 = .ok false) :=
  (C2_configure_model_iff_200 (DifyWorkflowExample.init "k" "http://localhost:5001")
    "a" 201 "" []).2 (by decide)

/-- C3: against a transport answering with status 201, `create_simple_app`
returns the decoded body unchanged; for every other status it returns the
empty dict and prints the diagnostic line built from `response.text`. -/
theorem C3_create_application_status (d : DifyWorkflowExample)
    (s : Nat) (txt : String) (b : JObj) :
    (s = 201 → (d.create_simple_app (fun _ => .ok ⟨s, txt, b⟩)).1 = .ok b) ∧
    (s ≠ 201 →
      (d.create_simple_app (fun _ => .ok ⟨s, txt, b⟩)).1 = .ok [] ∧
      (d.create_simple_app (fun _ => .ok ⟨s, txt, b⟩)).2.2 =
        ["❌ Error creating app: " ++ txt]) := by
  unfold DifyWorkflowExample.create_simple_app
  constructor
  · intro h
    simp [h]
  · intro h
    simp [h]

theorem C3_create_application_status_witness :
    ((DifyWorkflowExample.init "k" "http://localhost:5001").create_simple_app
        (fun _ => .ok ⟨201, "", [("id", Json.str "X")]⟩)).1 = .ok [("id", Json.str "X")] ∧
    ((DifyWorkflowExample.init "k" "http://localhost:5001").create_simple_app
        (fun _ => .ok ⟨404, "not found", [("id", Json.str "X")]⟩)).1 = .ok [] ∧
    ((DifyWorkflowExample.init "k" "http://localhost:5001").create_simple_app
        (fun _ => .ok ⟨404, "not found", [("id", Json.str "X")]⟩)).2.2 =
      ["❌ Error creating app: not found"] :=
  ⟨(C3_create_application_status (DifyWorkflowExample.init "k" "http://localhost:5001")
      201 "" [("id", Json.str "X")]).1 rfl,
   ((C3_create_application_status (DifyWorkflowExample.init "k" "http://localhost:5001")
      404 "not found" [("id", Json.str "X")]).2 (by decide)).1,
   ((C3_create_application_status (DifyWorkflowExample.init "k" "http://localhost:5001")
      404 "not found" [("id", Json.str "X")]).2 (by decide)).2⟩

/-- C4: against a transport answering with status `s`, `send_message`
returns the decoded body exactly when `s = 200`, and the empty dict for
every other status. -/
theorem C4_send_message_status (d : DifyWorkflowExample)
    (app_id message user_id : String) (s : Nat) (txt : String) (b : JObj) :
    (s = 200 →
      (d.send_message (fun _ => .ok ⟨s, txt, b⟩) app_id message user_id).1 = .ok b) ∧
    (s ≠ 200 →
      (d.send_message (fun _ => .ok ⟨s, txt, b⟩) app_id message user_id).1 = .ok []) := by
  unfold DifyWorkflowExample.send_message
  constructor
  · intro h
    simp [h]
  · intro h
    simp [h]

theorem C4_send_message_status_witness :
    ((DifyWorkflowExample.init "k" "http://localhost:5001").send_message
        (fun _ => .ok ⟨200, "", [("answer", Json.str "hi")]⟩) "a" "m" "u").1 =
      .ok [("answer", Json.str "hi")] ∧
    ((DifyWorkflowExample.init "k" "http://localhost:5001").send_message
        (fun _ => .ok ⟨500, "boom", [("answer", Json.str "hi")]⟩) "a" "m" "u").1 = .ok [] :=
  ⟨(C4_send_message_status (DifyWorkflowExample.init "k" "http://localhost:5001")
      "a" "m" "u" 200 "" [("answer", Json.str "hi")]).1 rfl,
   (C4_send_message_status (DifyWorkflowExample.init "k" "http://localhost:5001")
      "a" "m" "u" 500 "boom" [("answer", Json.str "hi")]).2 (by decide)⟩

/-- C10: the return value of `configure_model` depends only on the
status code of the response — two responses with the same status but
arbitrary different bodies or texts yield the same boolean. -/
theorem C10_configure_model_status_only (d : DifyWorkflowExample) (app_id : String)
    (r1 r2 : Response) (h : r1.status_code = r2.status_code) :
    (d.configure_model (fun _ => .ok r1) app_id).1 =
      (d.configure_model (fun _ => .ok r2) app_id).1 := by
  unfold DifyWorkflowExample.configure_model
  simp [h]

theorem C10_configure_model_status_only_witness :
    ((DifyWorkflowExample.init "k" "http://localhost:5001").configure_model
        (fun _ => .ok ⟨200, "a", [("x", Json.str "1")]⟩) "a").1 =
      ((DifyWorkflowExample.init "k" "http://localhost:5001").configure_model
        (fun _ => .ok ⟨200, "b", []⟩) "a").1 :=
  C10_configure_model_status_only (DifyWorkflowExample.init "k" "http://localhost:5001")
    "a" ⟨200, "a", [("x", Json.str "1")]⟩ ⟨200, "b", []⟩ rfl

theorem create_simple_app_eq (d : DifyWorkflowExample) (t : Transport) :
    d.create_simple_app t =
      match t (create_request d) with
      | .error e => (.error e, [create_request d], [])
      | .ok response =>
        if response.status_code = 201 then
          (.ok response.body, [create_request d], ["✅ App created successfully!"])
        else
          (.ok [], [create_request d], ["❌ Error creating app: " ++ response.text]) := rfl

theorem configure_model_eq (d : DifyWorkflowExample) (t : Transport) (a : String) :
    d.configure_model t a =
      match t (config_request d a) with
      | .error e => (.error e, [config_request d a], [])
      | .ok response =>
        (.ok (response.status_code == 200), [config_request d a], []) := rfl

theorem send_message_eq (d : DifyWorkflowExample) (t : Transport) (a m u : String) :
    d.send_message t a m u =
      match t (chat_request d a m u) with
      | .error e => (.error e, [chat_request d a m u], [])
      | .ok response =>
        if response.status_code = 200 then
          (.ok response.body, [chat_request d a m u], [])
        else
          (.ok [], [chat_request d a m u],
            ["❌ Error sending message: " ++ response.text]) := rfl

theorem is_config_req_create (d : DifyWorkflowExample) :
    is_config_req (create_request d) = false := rfl

theorem is_config_req_chat (d : DifyWorkflowExample) (a m u : String) :
    is_config_req (chat_request d a m u) = false := rfl

theorem is_chat_req_create (d : DifyWorkflowExample) :
    is_chat_req (create_request d) = false := rfl

theorem is_chat_req_config (d : DifyWorkflowExample) (a : String) :
    is_chat_req (config_request d a) = false := rfl

theorem is_chat_req_chat (d : DifyWorkflowExample) (a m u : String) :
    is_chat_req (chat_request d a m u) = true := rfl

theorem headers_create_request (d : DifyWorkflowExample) :
    (create_request d).headers = d.headers := rfl

theorem headers_config_request (d : DifyWorkflowExample) (a : String) :
    (config_request d a).headers = d.headers := rfl

theorem headers_chat_request (d : DifyWorkflowExample) (a m u : String) :
    (chat_request d a m u).headers = d.headers := rfl

/-- Every request the message loop issues is a chat request for one of
the messages of the list, sent as the default tutorial user. -/
theorem message_loop_requests (d : DifyWorkflowExample) (t : Transport) (a : String)
    (l : List String) (r : Request) (hr : r ∈ (message_loop d t a l).2.1) :
    ∃ m ∈ l, r = chat_request d a m tutorial_user := by
  induction l with
  | nil => simp [message_loop] at hr
  | cons m rest ih =>
    unfold message_loop at hr
    rcases hs : d.send_message t a m tutorial_user with ⟨res, q, p⟩
    have hq : q = [chat_request d a m tutorial_user] := by
      have h2 := send_message_requests d t a m tutorial_user
      rw [hs] at h2
      exact h2
    rw [hs] at hr
    cases res with
    | error e =>
      simp only [hq] at hr
      simp at hr
      exact ⟨m, by simp, hr⟩
    | ok response =>
      rcases hl : message_loop d t a rest with ⟨r2, q2, p2⟩
      rw [hl] at hr
      simp only [hq] at hr
      simp at hr
      rcases hr with hr | hr
      · exact ⟨m, by simp, hr⟩
      · have h3 : r ∈ (message_loop d t a rest).2.1 := by
          rw [hl]
          simpa using hr
        rcases ih h3 with ⟨m2, hm2, hrm⟩
        exact ⟨m2, by simp [hm2], hrm⟩

/-- `run` issues exactly the requests of the `try:` body (the handler
adds only a print). -/
theorem run_requests_eq (t : Transport) :
    (run t).requests =
      (main_try (DifyWorkflowExample.init the_api_key default_base_url) t).2.1 := by
  unfold run
  dsimp only
  rcases hm : main_try (DifyWorkflowExample.init the_api_key default_base_url) t
    with ⟨r0, q, p⟩
  cases r0 <;> rfl

/-- Shape of any execution of the `try:` body: it stops at the create
request, stops after a failed (or raised) configure request, or proceeds
past a succeeding configure request into the message loop. -/
theorem main_try_requests_shape (d : DifyWorkflowExample) (t : Transport) :
    (main_try d t).2.1 = [create_request d] ∨
    (∃ a, ((∃ e, t (config_request d a) = .error e) ∨
           (∃ resp, t (config_request d a) = .ok resp ∧ resp.status_code ≠ 200)) ∧
      (main_try d t).2.1 = [create_request d, config_request d a]) ∨
    (∃ a resp, t (config_request d a) = .ok resp ∧ resp.status_code = 200 ∧
      (main_try d t).2.1 =
        create_request d :: config_request d a ::
          (message_loop d t a test_messages).2.1) := by
  unfold main_try
  rw [create_simple_app_eq]
  rcases ht1 : t (create_request d) with e | resp1
  · left; rfl
  · dsimp only
    by_cases h201 : resp1.status_code = 201
    · rw [if_pos h201]
      dsimp only
      by_cases hemp : resp1.body.isEmpty = true
      · rw [if_pos hemp]
        left; rfl
      · rw [if_neg hemp]
        rcases hl : resp1.body.lookup "id" with _ | idv
        · left; rfl
        · dsimp only
          rw [configure_model_eq]
          rcases ht2 : t (config_request d idv.pyStr) with e2 | resp2
          · right; left
            exact ⟨idv.pyStr, .inl ⟨e2, ht2⟩, rfl⟩
          · dsimp only
            by_cases hs200 : resp2.status_code = 200
            · have hb : (resp2.status_code == 200) = true := by simp [hs200]
              rw [hb, if_pos rfl]
              right; right
              refine ⟨idv.pyStr, resp2, ht2, hs200, ?_⟩
              rcases hl3 : message_loop d t idv.pyStr test_messages with ⟨r3, q3, p3⟩
              cases r3 <;> simp
            · have hb : (resp2.status_code == 200) = false := by simp [hs200]
              rw [hb, if_neg Bool.false_ne_true]
              right; left
              exact ⟨idv.pyStr, .inr ⟨resp2, ht2, hs200⟩, rfl⟩
    · rw [if_neg h201]
      left; rfl

theorem run_eq (t : Transport) :
    run t =
      match main_try (DifyWorkflowExample.init the_api_key default_base_url) t with
      | (.error e, q, p) => ⟨p ++ ["💥 An error occurred: " ++ e], q⟩
      | (.ok _, q, p) => ⟨p, q⟩ := rfl

/-- When `create_simple_app` returns the empty dict, the `try:` body
takes the early-exit branch: only the create request was issued and the
last print is the exit message. -/
theorem main_try_create_empty (d : DifyWorkflowExample) (t : Transport)
    (h : (d.create_simple_app t).1 = .ok []) :
    main_try d t =
      (.ok (), [create_request d],
        "🚀 Creating Dify application..." ::
          ((d.create_simple_app t).2.2 ++ ["Failed to create app. Exiting."])) := by
  unfold main_try
  rcases hc : d.create_simple_app t with ⟨r1, q1, p1⟩
  rw [hc] at h
  dsimp only at h
  subst h
  have hq : q1 = [create_request d] := by
    have h2 := create_simple_app_requests d t
    rw [hc] at h2
    exact h2
  subst hq
  rfl

/-- C5: in every execution of `run()`, if `create_application` returned
an empty result then no configure-model request is ever issued — the run
aborts right after printing the exit message. -/
theorem C5_no_configure_after_create_failure (t : Transport)
    (h : ((DifyWorkflowExample.init the_api_key default_base_url).create_simple_app t).1 =
      .ok []) :
    (run t).requests.filter is_config_req = [] ∧
    (run t).prints.getLast? = some "Failed to create app. Exiting." := by
  have hm := main_try_create_empty (DifyWorkflowExample.init the_api_key default_base_url) t h
  rw [run_eq, hm]
  dsimp only
  constructor
  · simp [List.filter_cons, is_config_req_create]
  · rw [← List.cons_append, List.getLast?_append_cons]
    rfl

theorem C5_no_configure_after_create_failure_witness :
    (((DifyWorkflowExample.init the_api_key default_base_url).create_simple_app
        (fun _ => .ok ⟨500, "err", []⟩)).1 = .ok []) ∧
    ((run (fun _ => .ok ⟨500, "err", []⟩)).requests.filter is_config_req = [] ∧
      (run (fun _ => .ok ⟨500, "err", []⟩)).prints.getLast? =
        some "Failed to create app. Exiting.") :=
  ⟨by rfl, C5_no_configure_after_create_failure (fun _ => .ok ⟨500, "err", []⟩) (by rfl)⟩

/-- C6: in every execution of `run()`, if the configure-model request was
answered with a non-200 status (so `configure_model` returned `False`),
then no chat-message request is ever issued. -/
theorem C6_no_chat_after_config_failure (t : Transport) (r : Request) (resp : Response)
    (hr : r ∈ (run t).requests) (hcfg : is_config_req r = true)
    (ht : t r = .ok resp) (hs : resp.status_code ≠ 200) :
    (run t).requests.filter is_chat_req = [] := by
  rw [run_requests_eq] at hr ⊢
  rcases main_try_requests_shape (DifyWorkflowExample.init the_api_key default_base_url) t
    with hsh | ⟨a, _, hsh⟩ | ⟨a, resp2, ht2, hs2, hsh⟩
  · rw [hsh]
    simp [List.filter_cons, is_chat_req_create]
  · rw [hsh]
    simp [List.filter_cons, is_chat_req_create, is_chat_req_config]
  · rw [hsh] at hr
    simp only [List.mem_cons] at hr
    rcases hr with hr | hr | hr
    · subst hr
      rw [is_config_req_create] at hcfg
      exact absurd hcfg (by simp)
    · subst hr
      rw [ht2] at ht
      have hresp : resp2 = resp := by
        injection ht
      exact absurd hs2 (hresp ▸ hs)
    · rcases message_loop_requests _ t a test_messages r hr with ⟨m, _, hrm⟩
      subst hrm
      rw [is_config_req_chat] at hcfg
      exact absurd hcfg (by simp)

/-- Transport for the C6 witness: create succeeds with id `abc`, every
other request is answered 500. -/
def mock_config_fail : Transport := fun r =>
  if is_create_req r then .ok ⟨201, "", [("id", .str "abc")]⟩
  else .ok ⟨500, "", []⟩

theorem C6_no_chat_after_config_failure_witness :
    config_request (DifyWorkflowExample.init the_api_key default_base_url) "abc" ∈
      (run mock_config_fail).requests ∧
    (run mock_config_fail).requests.filter is_chat_req = [] := by
  have he : (run mock_config_fail).requests =
      [create_request (DifyWorkflowExample.init the_api_key default_base_url),
       config_request (DifyWorkflowExample.init the_api_key default_base_url) "abc"] := rfl
  have hmem : config_request (DifyWorkflowExample.init the_api_key default_base_url) "abc" ∈
      (run mock_config_fail).requests := by
    rw [he]
    exact List.mem_cons_of_mem _ (List.mem_cons_self _ _)
  exact ⟨hmem,
    C6_no_chat_after_config_failure mock_config_fail _ ⟨500, "", []⟩ hmem rfl rfl (by decide)⟩

/-- Every request the `try:` body issues carries the stored headers of
the client. -/
theorem main_try_headers (d : DifyWorkflowExample) (t : Transport) (r : Request)
    (hr : r ∈ (main_try d t).2.1) : r.headers = d.headers := by
  rcases main_try_requests_shape d t with hsh | ⟨a, _, hsh⟩ | ⟨a, resp, _, _, hsh⟩ <;>
    rw [hsh] at hr <;> simp only [List.mem_cons, List.not_mem_nil, or_false] at hr
  · subst hr
    rfl
  · rcases hr with hr | hr <;> subst hr <;> rfl
  · rcases hr with hr | hr | hr
    · subst hr
      rfl
    · subst hr
      rfl
    · rcases message_loop_requests d t a test_messages r hr with ⟨m, _, hrm⟩
      subst hrm
      rfl

/-- C7: every HTTP request the script issues — the create-application
POST, the configure-model PUT, and each chat-message POST, whether called
directly on a client built from any api key, or issued during `run()`
with the hardcoded key — carries exactly the headers
`Authorization: Bearer <api_key>` and `Content-Type: application/json`
stored at construction. -/
theorem C7_all_requests_carry_auth_headers (t : Transport) :
    (∀ api_key base_url app_id message user_id (r : Request),
      (r ∈ ((DifyWorkflowExample.init api_key base_url).create_simple_app t).2.1 ∨
       r ∈ ((DifyWorkflowExample.init api_key base_url).configure_model t app_id).2.1 ∨
       r ∈ ((DifyWorkflowExample.init api_key base_url).send_message t
              app_id message user_id).2.1) →
      r.headers =
        [("Authorization", "Bearer " ++ api_key), ("Content-Type", "application/json")]) ∧
    (∀ r ∈ (run t).requests,
      r.headers =
        [("Authorization", "Bearer " ++ the_api_key),
         ("Content-Type", "application/json")]) := by
  constructor
  · intro api_key base_url app_id message user_id r hr
    rcases hr with hr | hr | hr
    · rw [create_simple_app_requests] at hr
      simp only [List.mem_singleton] at hr
      subst hr
      rfl
    · rw [configure_model_requests] at hr
      simp only [List.mem_singleton] at hr
      subst hr
      rfl
    · rw [send_message_requests] at hr
      simp only [List.mem_singleton] at hr
      subst hr
      rfl
  · intro r hr
    rw [run_requests_eq] at hr
    exact main_try_headers _ t r hr

theorem C7_all_requests_carry_auth_headers_witness :
    ((create_request (DifyWorkflowExample.init "my-key" "http://h")).headers =
      [("Authorization", "Bearer " ++ "my-key"), ("Content-Type", "application/json")]) ∧
    (create_request (DifyWorkflowExample.init the_api_key default_base_url)).headers =
      [("Authorization", "Bearer " ++ the_api_key),
       ("Content-Type", "application/json")] := by
  constructor
  · exact (C7_all_requests_carry_auth_headers (fun _ => .ok ⟨200, "", []⟩)).1
      "my-key" "http://h" "a" "m" "u" _
      (.inl (by rw [create_simple_app_requests]; exact List.mem_singleton.mpr rfl))
  · exact (C7_all_requests_carry_auth_headers mock_transport).2 _
      (by rw [run_requests_eq]
          rcases main_try_requests_shape
              (DifyWorkflowExample.init the_api_key default_base_url) mock_transport
            with hsh | ⟨a, _, hsh⟩ | ⟨a, resp, _, _, hsh⟩ <;> rw [hsh] <;> simp)

/-- C8: whenever the `try:` body raises (any exception, from the
transport or from the `app_data["id"]` lookup), `run()` catches it at
its single top-level handler, appends exactly one line printing it, and
returns normally with the requests issued so far. -/
theorem C8_single_top_level_handler (t : Transport) (e : String)
    (h : (main_try (DifyWorkflowExample.init the_api_key default_base_url) t).1 =
      .error e) :
    run t =
      ⟨(main_try (DifyWorkflowExample.init the_api_key default_base_url) t).2.2 ++
        ["💥 An error occurred: " ++ e],
       (main_try (DifyWorkflowExample.init the_api_key default_base_url) t).2.1⟩ := by
  rw [run_eq]
  rcases hm : main_try (DifyWorkflowExample.init the_api_key default_base_url) t
    with ⟨r0, q, p⟩
  rw [hm] at h
  dsimp only at h
  subst h
  rfl

theorem C8_single_top_level_handler_witness :
    run (fun _ => .error "ConnectionError") =
      ⟨["🚀 Creating Dify application...", "💥 An error occurred: ConnectionError"],
       [create_request (DifyWorkflowExample.init the_api_key default_base_url)]⟩ := by
  have h := C8_single_top_level_handler (fun _ => .error "ConnectionError")
    "ConnectionError" rfl
  rw [h]
  rfl

/-- When `create_simple_app` returns a non-empty dict without an `"id"`
key, the `try:` body raises `KeyError` (the key in single quotes) at
`app_data["id"]`, before the configure call. -/
theorem main_try_missing_id (d : DifyWorkflowExample) (t : Transport) (b : JObj)
    (hc : (d.create_simple_app t).1 = .ok b)
    (hne : b.isEmpty = false) (hid : b.lookup "id" = none) :
    main_try d t =
      (.error (apos ++ "id" ++ apos), [create_request d],
        ["🚀 Creating Dify application...", "✅ App created successfully!"]) := by
  rw [create_simple_app_eq] at hc
  unfold main_try
  rw [create_simple_app_eq]
  rcases ht1 : t (create_request d) with e | resp1
  · rw [ht1] at hc
    simp at hc
  · rw [ht1] at hc
    dsimp only at hc ⊢
    by_cases h201 : resp1.status_code = 201
    · rw [if_pos h201] at hc ⊢
      dsimp only at hc ⊢
      have hb : resp1.body = b := by
        simpa using hc
      rw [hb, if_neg (by simp [hne]), hid]
    · rw [if_neg h201] at hc
      dsimp only at hc
      have hb : b = [] := by
        have := hc
        simpa using this.symm
      subst hb
      simp at hne

/-- C9: if `create_application` returns a non-empty body lacking an
`"id"` field, `run()` raises `KeyError` at the unguarded
`app_data["id"]`, the top-level handler prints it and returns, and no
configure-model or chat-message request is ever issued. -/
theorem C9_missing_id_raises_keyerror (t : Transport) (b : JObj)
    (hc : ((DifyWorkflowExample.init the_api_key default_base_url).create_simple_app t).1 =
      .ok b)
    (hne : b.isEmpty = false) (hid : b.lookup "id" = none) :
    (run t).requests.filter (fun r => is_config_req r || is_chat_req r) = [] ∧
    (run t).prints =
      ["🚀 Creating Dify application...", "✅ App created successfully!",
       "💥 An error occurred: " ++ (apos ++ "id" ++ apos)] := by
  have hm := main_try_missing_id (DifyWorkflowExample.init the_api_key default_base_url)
    t b hc hne hid
  rw [run_eq, hm]
  constructor
  · simp [List.filter_cons, is_config_req_create, is_chat_req_create]
  · rfl

/-- Transport for the C9 witness: create succeeds (201) with a body that
has no `"id"` field. -/
def mock_no_id : Transport := fun _ => .ok ⟨201, "", [("uuid", .str "x")]⟩

theorem C9_missing_id_raises_keyerror_witness :
    (run mock_no_id).requests.filter (fun r => is_config_req r || is_chat_req r) = [] ∧
    (run mock_no_id).prints =
      ["🚀 Creating Dify application...", "✅ App created successfully!",
       "💥 An error occurred: " ++ (apos ++ "id" ++ apos)] :=
  C9_missing_id_raises_keyerror mock_no_id [("uuid", Json.str "x")] rfl rfl rfl
